import Mathlib

/-!
Verification of the contour-terminal core (escape-sequence parser, function
table, line storage, sequencer) against its natural-language specification.

The definitions below are shallow embeddings of the C++ sources:
  - vtbackend/Line.h          (Line, TrivialLineBuffer, matchTextAt, search, searchReverse)
  - vtbackend/Functions.h     (FunctionDefinition, FunctionSelector, compare, the table)
  - vtbackend/Sequencer.cpp   (print, execute, putOSC, dispatchOSC, maxBulkTextSequenceWidth)
  - vtbackend/cell/CompactCell.cpp (codepoints, toUtf8)
Machine integers are modelled as Nat, with explicit two-complement wraps
(size_t arithmetic) where the C++ relies on unsigned wrap-around.  Parts of
the repository that are only declared in the available sources (the parser
state machine, the inflate function, CellUtil, select, Sequence.h constants)
are modelled from the specification; each such definition carries a doc
comment starting with: Modelled from the spec.
-/

namespace Terminal

/-! ## Basic helpers: size_t arithmetic and UTF-8 -/

/-- The modulus of size_t values (the code runs on 64-bit platforms). -/
def sizeTMod : Nat := 2 ^ 64

/-- Conversion of a signed value to size_t, as done by static_cast of a
negative int difference in Line.h matchTextAt. -/
def intToSizeT (i : Int) : Nat := (i % (sizeTMod : Int)).toNat

/-- Unsigned size_t subtraction with wrap-around, as in the C++ expression
unbox(size()) - unbox(startColumn). -/
def sizeTSub (a b : Nat) : Nat := if b ≤ a then a - b else sizeTMod - (b - a)

/-- Standard UTF-8 encoding of a single codepoint (models
unicode.convert_to of libunicode for one scalar). -/
def utf8Encode (cp : Nat) : List Nat :=
  if cp < 0x80 then [cp]
  else if cp < 0x800 then [0xC0 + cp / 64, 0x80 + cp % 64]
  else if cp < 0x10000 then
    [0xE0 + cp / 4096, 0x80 + (cp / 64) % 64, 0x80 + cp % 64]
  else
    [0xF0 + cp / 262144, 0x80 + (cp / 4096) % 64, 0x80 + (cp / 64) % 64, 0x80 + cp % 64]

/-- UTF-8 encoding of a codepoint sequence (models
unicode.convert_to applied to a u32string_view). -/
def u32ToUtf8 (text : List Nat) : List Nat := (text.map utf8Encode).flatten

/-- std::string_view find(needle, pos): the smallest index i with pos ≤ i at
which needle occurs in hay (an empty needle occurs at every index up to the
length); none models std::string_view::npos. -/
def strFind (hay needle : List Nat) (pos : Nat) : Option Nat :=
  (List.range (hay.length + 1)).find? fun i =>
    decide (pos ≤ i) && decide (i + needle.length ≤ hay.length)
      && needle.isPrefixOf (hay.drop i)

/-- std::string_view rfind(needle, pos): the largest index i with i ≤ pos at
which needle occurs in hay. -/
def strRFind (hay needle : List Nat) (pos : Nat) : Option Nat :=
  (List.range (hay.length + 1)).reverse.find? fun i =>
    decide (i ≤ pos) && decide (i + needle.length ≤ hay.length)
      && needle.isPrefixOf (hay.drop i)

/-! ## CompactCell (vtbackend/cell/CompactCell.cpp)

The cell stores a primary codepoint (0 meaning the cell is empty) and an
optional extra payload holding the combining codepoints. -/

/-- The extra payload of a CompactCell; only the combining codepoints take
part in codepoints() and toUtf8(). -/
structure CompactCellExtra where
  codepoints : List Nat
deriving DecidableEq, Repr

structure CompactCell where
  codepoint : Nat
  extra : Option CompactCellExtra
deriving DecidableEq, Repr

/-- CompactCell::codepoints (CompactCell.cpp lines 19-34): the primary
codepoint followed by the extra codepoints; empty when the primary
codepoint is 0. -/
def CompactCell.codepointsOf (c : CompactCell) : List Nat :=
  if c.codepoint ≠ 0 then
    match c.extra with
    | some e => c.codepoint :: e.codepoints
    | none => [c.codepoint]
  else []

/-- CompactCell::toUtf8 (CompactCell.cpp lines 36-47): empty when the
primary codepoint is 0, else the UTF-8 bytes of the primary codepoint
followed by those of each extra codepoint. -/
def CompactCell.toUtf8 (c : CompactCell) : List Nat :=
  if c.codepoint = 0 then []
  else
    utf8Encode c.codepoint ++
      (match c.extra with
       | some e => (e.codepoints.map utf8Encode).flatten
       | none => [])

/-- The extra codepoints stored in the cell, in stored order. -/
def CompactCell.extraCodepoints (c : CompactCell) : List Nat :=
  match c.extra with
  | some e => e.codepoints
  | none => []

/-! ## Function table (vtbackend/Functions.h) -/

inductive FunctionCategory
  | c0
  | esc
  | csi
  | osc
  | dcs
deriving DecidableEq, Repr

/-- The numeric value of the category enum (C0 = 0 .. DCS = 4). -/
def FunctionCategory.toInt : FunctionCategory → Int
  | .c0 => 0
  | .esc => 1
  | .csi => 2
  | .osc => 3
  | .dcs => 4

/-- FunctionDefinition (Functions.h): leader, intermediate and final byte are
char codes with 0 meaning none.  The conformance level, extension and the
comment string do not take part in compare, id or select and are omitted;
the mnemonic is kept to tell definitions apart. -/
structure FunctionDefinition where
  category : FunctionCategory
  leader : Nat
  intermediate : Nat
  finalSymbol : Nat
  minimumParameters : Nat
  maximumParameters : Nat
  mnemonic : String
deriving DecidableEq, Repr

/-- FunctionSelector (Functions.h): the lookup key built from a parsed
sequence.  argc is the number of arguments supplied (an int in C++, always
non-negative where selectors are built). -/
structure FunctionSelector where
  category : FunctionCategory
  leader : Nat
  argc : Nat
  intermediate : Nat
  finalSymbol : Nat
deriving DecidableEq, Repr

/-- compare(FunctionSelector, FunctionDefinition) (Functions.h lines
645-669): lexicographic on category, final byte, leader, intermediate,
then parameter count: for OSC the argc is compared exactly against
maximumParameters, otherwise it must lie within
[minimumParameters, maximumParameters]. -/
def compare (a : FunctionSelector) (b : FunctionDefinition) : Int :=
  if a.category ≠ b.category then a.category.toInt - b.category.toInt
  else if a.finalSymbol ≠ b.finalSymbol then (a.finalSymbol : Int) - (b.finalSymbol : Int)
  else if a.leader ≠ b.leader then (a.leader : Int) - (b.leader : Int)
  else if a.intermediate ≠ b.intermediate then (a.intermediate : Int) - (b.intermediate : Int)
  else if a.category = .osc then (a.argc : Int) - (b.maximumParameters : Int)
  else if (a.argc : Int) < (b.minimumParameters : Int) then -1
  else if (a.argc : Int) > (b.maximumParameters : Int) then 1
  else 0

/-- The selector carrying a definition's own category, leader, intermediate
and final byte together with a chosen argument count. -/
def selectorOf (d : FunctionDefinition) (argc : Nat) : FunctionSelector :=
  { category := d.category, leader := d.leader, argc := argc,
    intermediate := d.intermediate, finalSymbol := d.finalSymbol }

/-- detail::C0 of Functions.h. -/
def mkC0 (finalCharacter : Nat) (mnemonic : String) : FunctionDefinition :=
  { category := .c0, leader := 0, intermediate := 0, finalSymbol := finalCharacter,
    minimumParameters := 0, maximumParameters := 0, mnemonic := mnemonic }

/-- detail::OSC of Functions.h: the OSC code is stored in
maximumParameters. -/
def mkOSC (code : Nat) (mnemonic : String) : FunctionDefinition :=
  { category := .osc, leader := 0, intermediate := 0, finalSymbol := 0,
    minimumParameters := 0, maximumParameters := code, mnemonic := mnemonic }

/-- detail::ESC of Functions.h (intermediate 0 when absent). -/
def mkESC (intermediate finalCharacter : Nat) (mnemonic : String) : FunctionDefinition :=
  { category := .esc, leader := 0, intermediate := intermediate,
    finalSymbol := finalCharacter, minimumParameters := 0, maximumParameters := 0,
    mnemonic := mnemonic }

/-- detail::CSI of Functions.h (leader and intermediate 0 when absent). -/
def mkCSI (leader argc0 argc1 intermediate finalCharacter : Nat)
    (mnemonic : String) : FunctionDefinition :=
  { category := .csi, leader := leader, intermediate := intermediate,
    finalSymbol := finalCharacter, minimumParameters := argc0,
    maximumParameters := argc1, mnemonic := mnemonic }

/-- detail::DCS of Functions.h. -/
def mkDCS (leader argc0 argc1 intermediate finalCharacter : Nat)
    (mnemonic : String) : FunctionDefinition :=
  { category := .dcs, leader := leader, intermediate := intermediate,
    finalSymbol := finalCharacter, minimumParameters := argc0,
    maximumParameters := argc1, mnemonic := mnemonic }

/-- ArgsMax of Functions.h: the largest value fitting in 7 bits. -/
def ArgsMax : Nat := 127

-- C0 definitions (final byte given as its code).
def EOT : FunctionDefinition := mkC0 0x04 "EOT"
def BEL : FunctionDefinition := mkC0 0x07 "BEL"
def BS : FunctionDefinition := mkC0 0x08 "BS"
def TAB : FunctionDefinition := mkC0 0x09 "TAB"
def LF : FunctionDefinition := mkC0 0x0A "LF"
def VT : FunctionDefinition := mkC0 0x0B "VT"
def FF : FunctionDefinition := mkC0 0x0C "FF"
def CR : FunctionDefinition := mkC0 0x0D "CR"
def LS1 : FunctionDefinition := mkC0 0x0E "LS1"
def LS0 : FunctionDefinition := mkC0 0x0F "LS0"

-- ESC definitions: intermediate byte, final byte.
def SCS_G0_SPECIAL : FunctionDefinition := mkESC 0x28 0x30 "SCS_G0_SPECIAL"
def SCS_G0_USASCII : FunctionDefinition := mkESC 0x28 0x42 "SCS_G0_USASCII"
def SCS_G1_SPECIAL : FunctionDefinition := mkESC 0x29 0x30 "SCS_G1_SPECIAL"
def SCS_G1_USASCII : FunctionDefinition := mkESC 0x29 0x42 "SCS_G1_USASCII"
def DECALN : FunctionDefinition := mkESC 0x23 0x38 "DECALN"
def DECBI : FunctionDefinition := mkESC 0 0x36 "DECBI"
def DECFI : FunctionDefinition := mkESC 0 0x39 "DECFI"
def DECKPAM : FunctionDefinition := mkESC 0 0x3D "DECKPAM"
def DECKPNM : FunctionDefinition := mkESC 0 0x3E "DECKPNM"
def DECRS : FunctionDefinition := mkESC 0 0x38 "DECRS"
def DECSC : FunctionDefinition := mkESC 0 0x37 "DECSC"
def HTS : FunctionDefinition := mkESC 0 0x48 "HTS"
def IND : FunctionDefinition := mkESC 0 0x44 "IND"
def NEL : FunctionDefinition := mkESC 0 0x45 "NEL"
def RI : FunctionDefinition := mkESC 0 0x4D "RI"
def RIS : FunctionDefinition := mkESC 0 0x63 "RIS"
def SS2 : FunctionDefinition := mkESC 0 0x4E "SS2"
def SS3 : FunctionDefinition := mkESC 0 0x4F "SS3"

-- CSI definitions: leader, argc0, argc1, intermediate, final byte.
def ANSISYSSC : FunctionDefinition := mkCSI 0 0 0 0 0x75 "ANSISYSSC"
def CBT : FunctionDefinition := mkCSI 0 0 1 0 0x5A "CBT"
def CHA : FunctionDefinition := mkCSI 0 0 1 0 0x47 "CHA"
def CHT : FunctionDefinition := mkCSI 0 0 1 0 0x49 "CHT"
def CNL : FunctionDefinition := mkCSI 0 0 1 0 0x45 "CNL"
def CPL : FunctionDefinition := mkCSI 0 0 1 0 0x46 "CPL"
def CPR : FunctionDefinition := mkCSI 0 1 1 0 0x6E "CPR"
def CUB : FunctionDefinition := mkCSI 0 0 1 0 0x44 "CUB"
def CUD : FunctionDefinition := mkCSI 0 0 1 0 0x42 "CUD"
def CUF : FunctionDefinition := mkCSI 0 0 1 0 0x43 "CUF"
def CUP : FunctionDefinition := mkCSI 0 0 2 0 0x48 "CUP"
def CUU : FunctionDefinition := mkCSI 0 0 1 0 0x41 "CUU"
def DA1 : FunctionDefinition := mkCSI 0 0 1 0 0x63 "DA1"
def DA2 : FunctionDefinition := mkCSI 0x3E 0 1 0 0x63 "DA2"
def DA3 : FunctionDefinition := mkCSI 0x3D 0 1 0 0x63 "DA3"
def DCH : FunctionDefinition := mkCSI 0 0 1 0 0x50 "DCH"
def DECCARA : FunctionDefinition := mkCSI 0 5 ArgsMax 0x24 0x72 "DECCARA"
def DECCRA : FunctionDefinition := mkCSI 0 0 8 0x24 0x76 "DECCRA"
def DECERA : FunctionDefinition := mkCSI 0 0 4 0x24 0x7A "DECERA"
def DECFRA : FunctionDefinition := mkCSI 0 0 4 0x24 0x78 "DECFRA"
def DECDC : FunctionDefinition := mkCSI 0 0 1 0x27 0x7E "DECDC"
def DECIC : FunctionDefinition := mkCSI 0 0 1 0x27 0x7D "DECIC"
def DECSCA : FunctionDefinition := mkCSI 0 0 1 0x22 0x71 "DECSCA"
def DECSED : FunctionDefinition := mkCSI 0x3F 0 1 0 0x4A "DECSED"
def DECSERA : FunctionDefinition := mkCSI 0 0 4 0x24 0x7B "DECSERA"
def DECSEL : FunctionDefinition := mkCSI 0x3F 0 1 0 0x4B "DECSEL"
def XTRESTORE : FunctionDefinition := mkCSI 0x3F 0 ArgsMax 0 0x72 "XTRESTORE"
def XTSAVE : FunctionDefinition := mkCSI 0x3F 0 ArgsMax 0 0x73 "XTSAVE"
def DECRM : FunctionDefinition := mkCSI 0x3F 1 ArgsMax 0 0x6C "DECRM"
def DECRQM : FunctionDefinition := mkCSI 0x3F 1 1 0x24 0x70 "DECRQM"
def DECRQM_ANSI : FunctionDefinition := mkCSI 0 1 1 0x24 0x70 "DECRQM_ANSI"
def DECRQPSR : FunctionDefinition := mkCSI 0 1 1 0x24 0x77 "DECRQPSR"
def DECSCL : FunctionDefinition := mkCSI 0 2 2 0x22 0x70 "DECSCL"
def DECSCPP : FunctionDefinition := mkCSI 0 0 1 0x24 0x7C "DECSCPP"
def DECSNLS : FunctionDefinition := mkCSI 0 0 1 0x2A 0x7C "DECSNLS"
def DECSCUSR : FunctionDefinition := mkCSI 0 0 1 0x20 0x71 "DECSCUSR"
def DECSLRM : FunctionDefinition := mkCSI 0 2 2 0 0x73 "DECSLRM"
def DECSM : FunctionDefinition := mkCSI 0x3F 1 ArgsMax 0 0x68 "DECSM"
def DECSTBM : FunctionDefinition := mkCSI 0 0 2 0 0x72 "DECSTBM"
def DECSTR : FunctionDefinition := mkCSI 0 0 0 0x21 0x70 "DECSTR"
def DECXCPR : FunctionDefinition := mkCSI 0 0 0 0 0x36 "DECXCPR"
def DL : FunctionDefinition := mkCSI 0 0 1 0 0x4D "DL"
def ECH : FunctionDefinition := mkCSI 0 0 1 0 0x58 "ECH"
def ED : FunctionDefinition := mkCSI 0 0 ArgsMax 0 0x4A "ED"
def EL : FunctionDefinition := mkCSI 0 0 1 0 0x4B "EL"
def HPA : FunctionDefinition := mkCSI 0 1 1 0 0x60 "HPA"
def HPR : FunctionDefinition := mkCSI 0 1 1 0 0x61 "HPR"
def HVP : FunctionDefinition := mkCSI 0 0 2 0 0x66 "HVP"
def ICH : FunctionDefinition := mkCSI 0 0 1 0 0x40 "ICH"
def IL : FunctionDefinition := mkCSI 0 0 1 0 0x4C "IL"
def REP : FunctionDefinition := mkCSI 0 1 1 0 0x62 "REP"
def RM : FunctionDefinition := mkCSI 0 1 ArgsMax 0 0x6C "RM"
def SCOSC : FunctionDefinition := mkCSI 0 0 0 0 0x73 "SCOSC"
def SD : FunctionDefinition := mkCSI 0 0 1 0 0x54 "SD"
def SETMARK : FunctionDefinition := mkCSI 0x3E 0 0 0 0x4D "XTSETMARK"
def SGR : FunctionDefinition := mkCSI 0 0 ArgsMax 0 0x6D "SGR"
def SM : FunctionDefinition := mkCSI 0 1 ArgsMax 0 0x68 "SM"
def SU : FunctionDefinition := mkCSI 0 0 1 0 0x53 "SU"
def TBC : FunctionDefinition := mkCSI 0 0 1 0 0x67 "TBC"
def VPA : FunctionDefinition := mkCSI 0 0 1 0 0x64 "VPA"
def WINMANIP : FunctionDefinition := mkCSI 0 1 3 0 0x74 "WINMANIP"
def XTSMGRAPHICS : FunctionDefinition := mkCSI 0x3F 2 4 0 0x53 "XTSMGRAPHICS"
def XTPOPCOLORS : FunctionDefinition := mkCSI 0 0 ArgsMax 0x23 0x51 "XTPOPCOLORS"
def XTPUSHCOLORS : FunctionDefinition := mkCSI 0 0 ArgsMax 0x23 0x50 "XTPUSHCOLORS"
def XTREPORTCOLORS : FunctionDefinition := mkCSI 0 0 0 0x23 0x52 "XTREPORTCOLORS"
def XTSHIFTESCAPE : FunctionDefinition := mkCSI 0x3E 0 1 0 0x73 "XTSHIFTESCAPE"
def XTVERSION : FunctionDefinition := mkCSI 0x3E 0 1 0 0x71 "XTVERSION"
def XTCAPTURE : FunctionDefinition := mkCSI 0x3E 0 2 0 0x74 "XTCAPTURE"
def DECSSDT : FunctionDefinition := mkCSI 0 0 1 0x24 0x7E "DECSSDT"
def DECSASD : FunctionDefinition := mkCSI 0 0 1 0x24 0x7D "DECSASD"
def DECPS : FunctionDefinition := mkCSI 0 3 18 0x2C 0x7E "DECPS"

-- DCS definitions.
def STP : FunctionDefinition := mkDCS 0 0 0 0x24 0x70 "XTSETPROFILE"
def DECRQSS : FunctionDefinition := mkDCS 0 0 0 0x24 0x71 "DECRQSS"
def DECSIXEL : FunctionDefinition := mkDCS 0 0 3 0 0x71 "DECSIXEL"
def XTGETTCAP : FunctionDefinition := mkDCS 0 0 0 0x2B 0x71 "XTGETTCAP"

-- OSC definitions (the numeric code is stored in maximumParameters).
def SETTITLE : FunctionDefinition := mkOSC 0 "SETINICON"
def SETICON : FunctionDefinition := mkOSC 1 "SETWINICON"
def SETWINTITLE : FunctionDefinition := mkOSC 2 "SETWINTITLE"
def SETXPROP : FunctionDefinition := mkOSC 3 "SETXPROP"
def SETCOLPAL : FunctionDefinition := mkOSC 4 "SETCOLPAL"
def SETCWD : FunctionDefinition := mkOSC 7 "SETCWD"
def HYPERLINK : FunctionDefinition := mkOSC 8 "HYPERLINK"
def COLORFG : FunctionDefinition := mkOSC 10 "COLORFG"
def COLORBG : FunctionDefinition := mkOSC 11 "COLORBG"
def COLORCURSOR : FunctionDefinition := mkOSC 12 "COLORCURSOR"
def COLORMOUSEFG : FunctionDefinition := mkOSC 13 "COLORMOUSEFG"
def COLORMOUSEBG : FunctionDefinition := mkOSC 14 "COLORMOUSEBG"
def SETFONT : FunctionDefinition := mkOSC 50 "SETFONT"
def SETFONTALL : FunctionDefinition := mkOSC 60 "SETFONTALL"
def CLIPBOARD : FunctionDefinition := mkOSC 52 "CLIPBOARD"
def RCOLPAL : FunctionDefinition := mkOSC 104 "RCOLPAL"
def COLORSPECIAL : FunctionDefinition := mkOSC 106 "COLORSPECIAL"
def RCOLORFG : FunctionDefinition := mkOSC 110 "RCOLORFG"
def RCOLORBG : FunctionDefinition := mkOSC 111 "RCOLORBG"
def RCOLORCURSOR : FunctionDefinition := mkOSC 112 "RCOLORCURSOR"
def RCOLORMOUSEFG : FunctionDefinition := mkOSC 113 "RCOLORMOUSEFG"
def RCOLORMOUSEBG : FunctionDefinition := mkOSC 114 "RCOLORMOUSEBG"
def RCOLORHIGHLIGHTFG : FunctionDefinition := mkOSC 119 "RCOLORHIGHLIGHTFG"
def RCOLORHIGHLIGHTBG : FunctionDefinition := mkOSC 117 "RCOLORHIGHLIGHTBG"
def NOTIFY : FunctionDefinition := mkOSC 777 "NOTIFY"
def DUMPSTATE : FunctionDefinition := mkOSC 888 "DUMPSTATE"

/-- The function table, in the declaration order of the array inside
functions() (Functions.h lines 983-1130).  The C++ sorts this array by the
definition-to-definition comparison before querying it; the order is
irrelevant for the results proved here because at most one entry matches
any selector (functions_pairwise_compatible below). -/
def functions : List FunctionDefinition :=
  [ EOT, BEL, BS, TAB, LF, VT, FF, CR, LS0, LS1,
    DECALN, DECBI, DECFI, DECKPAM, DECKPNM, DECRS, DECSC, HTS, IND, NEL, RI,
    RIS, SCS_G0_SPECIAL, SCS_G0_USASCII, SCS_G1_SPECIAL, SCS_G1_USASCII, SS2, SS3,
    ANSISYSSC, XTCAPTURE, CBT, CHA, CHT, CNL, CPL, CPR, CUB, CUD, CUF, CUP, CUU,
    DA1, DA2, DA3, DCH, DECCARA, DECCRA, DECDC, DECERA, DECFRA, DECIC, DECSCA,
    DECSED, DECSERA, DECSEL, XTRESTORE, XTSAVE, DECPS, DECRM, DECRQM,
    DECRQM_ANSI, DECRQPSR, DECSASD, DECSCL, DECSCPP, DECSCUSR, DECSLRM, DECSM,
    DECSNLS, DECSSDT, DECSTBM, DECSTR, DECXCPR, DL, ECH, ED, EL, HPA, HPR, HVP,
    ICH, IL, REP, RM, SCOSC, SD, SETMARK, SGR, SM, SU, TBC, VPA, WINMANIP,
    XTPOPCOLORS, XTPUSHCOLORS, XTREPORTCOLORS, XTSHIFTESCAPE, XTSMGRAPHICS,
    XTVERSION,
    STP, DECRQSS, DECSIXEL, XTGETTCAP,
    SETICON, SETTITLE, SETWINTITLE, SETXPROP, SETCOLPAL, SETCWD, HYPERLINK,
    COLORFG, COLORBG, COLORCURSOR, COLORMOUSEFG, COLORMOUSEBG, SETFONT,
    SETFONTALL, CLIPBOARD, RCOLPAL, COLORSPECIAL, RCOLORFG, RCOLORBG,
    RCOLORCURSOR, RCOLORMOUSEFG, RCOLORMOUSEBG, RCOLORHIGHLIGHTFG,
    RCOLORHIGHLIGHTBG, NOTIFY, DUMPSTATE ]

/-- Modelled from the spec: the body of select lives in Functions.cpp which
is not among the available sources; per spec section 4.1 the table is
sorted once by the comparison and then queried by binary/ordered search.
Since at most one table entry compares equal to any selector (proved
below), scanning the table in declaration order returns the same
definition as the binary search over the sorted array. -/
def select (s : FunctionSelector) : Option FunctionDefinition :=
  functions.find? fun d => compare s d == 0

/-- Two table entries are compatible when they cannot both compare equal to
one selector: they differ in category, final byte, leader or intermediate,
or their parameter constraints cannot be met by one argc. -/
def overlapping (d e : FunctionDefinition) : Bool :=
  d.category == e.category && d.finalSymbol == e.finalSymbol
    && d.leader == e.leader && d.intermediate == e.intermediate
    && (if d.category == FunctionCategory.osc
        then d.maximumParameters == e.maximumParameters
        else decide (max d.minimumParameters e.minimumParameters
               ≤ min d.maximumParameters e.maximumParameters))

/-! ## Line storage (vtbackend/Line.h) -/

/-- Modelled from the spec: GraphicsAttributes.h is not among the available
sources; per spec section 3 a graphics attribute set is foreground and
background color plus a flag set.  Only equality of whole attribute sets
matters for the claims below. -/
structure GraphicsAttributes where
  foregroundColor : Nat := 0
  backgroundColor : Nat := 0
  flags : Nat := 0
deriving DecidableEq, Repr

/-- TrivialLineBuffer (Line.h lines 58-76): one shared attribute set plus a
packed byte string; text bytes are US-ASCII codes. -/
structure TrivialLineBuffer where
  displayWidth : Nat
  textAttributes : GraphicsAttributes
  fillAttributes : GraphicsAttributes
  hyperlink : Nat := 0
  usedColumns : Nat := 0
  text : List Nat := []
deriving DecidableEq, Repr

/-- TrivialLineBuffer::reset (Line.h lines 68-75). -/
def TrivialLineBuffer.reset (tb : TrivialLineBuffer)
    (attributes : GraphicsAttributes) : TrivialLineBuffer :=
  { tb with textAttributes := attributes, fillAttributes := attributes,
            hyperlink := 0, usedColumns := 0, text := [] }

/-- Modelled from the spec: the concrete Cell type (CompactCell.h /
SimpleCell.h) is not among the available sources; per spec section 3 a
cell holds a primary codepoint with optional combining codepoints (all
kept here in one list, empty meaning an empty cell), a display width,
graphics attributes and a hyperlink id. -/
structure Cell where
  codepoints : List Nat := []
  attributes : GraphicsAttributes := {}
  width : Nat := 1
  hyperlink : Nat := 0
deriving DecidableEq, Repr

/-- A cell is empty when it stores no codepoint (spec section 3: primary
codepoint 0 = empty). -/
def Cell.empty (c : Cell) : Bool := c.codepoints.isEmpty

/-- Cell write as used by Line::fill: reset then write attributes, one
codepoint and a width. -/
def Cell.write (attributes : GraphicsAttributes) (codepoint width : Nat) : Cell :=
  { codepoints := [codepoint], attributes := attributes, width := width, hyperlink := 0 }

inductive LineStorage
  | trivialB (buffer : TrivialLineBuffer)
  | inflatedB (cells : List Cell)
deriving DecidableEq, Repr

/-- Modelled from the spec: inflate of Line.cpp is not among the available
sources; per Line.h line 81 it unpacks a TrivialLineBuffer into one cell
per column: the used columns take one text byte each with the shared text
attributes and hyperlink, the remaining columns up to the display width
are blank cells carrying the fill attributes. -/
def inflate (tb : TrivialLineBuffer) : List Cell :=
  tb.text.map (fun b =>
      { codepoints := [b], attributes := tb.textAttributes, width := 1,
        hyperlink := tb.hyperlink })
    ++ List.replicate (tb.displayWidth - tb.text.length)
        { codepoints := [], attributes := tb.fillAttributes, width := 1, hyperlink := 0 }

/-- Line (Line.h lines 94-452): storage variant plus flag bits. -/
structure Line where
  storage : LineStorage
  flags : Nat := 0
deriving DecidableEq, Repr

def Line.isTrivialBuffer (l : Line) : Bool :=
  match l.storage with
  | .trivialB _ => true
  | .inflatedB _ => false

def Line.isInflatedBuffer (l : Line) : Bool := !l.isTrivialBuffer

/-- Line::inflatedBuffer (Line.h lines 469-475): the single promotion
point.  Returns the cells together with the line after the promotion (the
C++ mutates the variant in place). -/
def Line.inflatedBuffer (l : Line) : List Cell × Line :=
  match l.storage with
  | .trivialB tb =>
    let cells := inflate tb
    (cells, { l with storage := .inflatedB cells })
  | .inflatedB cells => (cells, l)

/-- The cells this line denotes (the const overload of inflatedBuffer,
which promotes through a const_cast without observable change for the
read-only callers). -/
def Line.cellsOf (l : Line) : List Cell := l.inflatedBuffer.1

/-- Line::size (Line.h lines 193-199). -/
def Line.size (l : Line) : Nat :=
  match l.storage with
  | .trivialB tb => tb.displayWidth
  | .inflatedB cells => cells.length

/-- Line::reset(flags, attributes) (Line.h lines 122-129): a trivial buffer
is reset in place, an inflated buffer is replaced with a fresh trivial
buffer of the same column count. -/
def Line.reset (l : Line) (flags : Nat) (attributes : GraphicsAttributes) : Line :=
  match l.storage with
  | .trivialB tb => { storage := .trivialB (tb.reset attributes), flags := flags }
  | .inflatedB cells =>
    { storage := .trivialB
        { displayWidth := cells.length, textAttributes := attributes,
          fillAttributes := attributes },
      flags := flags }

/-- Line::reset(flags, attributes, count) (Line.h lines 131-135). -/
def Line.resetWithCount (l : Line) (flags : Nat) (attributes : GraphicsAttributes)
    (count : Nat) : Line :=
  let _ := l
  { storage := .trivialB
      { displayWidth := count, textAttributes := attributes,
        fillAttributes := attributes },
    flags := flags }

/-- Line::fill(flags, attributes, codepoint, width) (Line.h lines 137-153):
codepoint 0 resets the line, otherwise every cell of the (inflated) buffer
is rewritten with the codepoint. -/
def Line.fill (l : Line) (flags : Nat) (attributes : GraphicsAttributes)
    (codepoint width : Nat) : Line :=
  if codepoint = 0 then l.reset flags attributes
  else
    let p := l.inflatedBuffer
    { storage := .inflatedB (p.1.map fun _ => Cell.write attributes codepoint width),
      flags := flags }

/-- Line::empty (Line.h lines 156-165). -/
def Line.empty (l : Line) : Bool :=
  match l.storage with
  | .trivialB tb => tb.text.isEmpty
  | .inflatedB cells => cells.all Cell.empty

/-- Line::setFlag (Line.h lines 280-286); flag bits are cleared by removing
exactly the set bits (the C++ uses and-not on the 8-bit flag word). -/
def Line.setFlag (l : Line) (flag : Nat) (enable : Bool) : Line :=
  { l with flags := if enable then l.flags ||| flag
                    else l.flags ^^^ (l.flags &&& flag) }

/-- Modelled from the spec: CellUtil.h is not among the available sources;
per spec section 4.4 inflated-line matching is per-cell codepoint
comparison: the cell must hold at least one codepoint and all its
codepoints must be a prefix of the searched text. -/
def beginsWith (text : List Nat) (cell : Cell) : Bool :=
  !cell.codepoints.isEmpty && cell.codepoints.isPrefixOf text

/-- The inflated branch of Line::matchTextAt (Line.h lines 339-354): the
text must fit between startColumn and the line end (a size_t subtraction),
and every position must begin the corresponding text suffix.  An
out-of-range cell access (impossible under the fit check for in-range
start columns) is modelled as a blank cell. -/
def matchCellsAt (cells : List Cell) (text : List Nat) (startColumn : Nat) : Bool :=
  if text.length > sizeTSub cells.length startColumn then false
  else
    (List.range text.length).all fun i =>
      beginsWith (text.drop i) (cells.getD (startColumn + i) {})

/-- Line::matchTextAt (Line.h lines 322-355).  In the trivial branch the
C++ takes substr(column) of the packed text and then searches it with
start position column again, accepting only result index 0; the
preceding length check casts a negative int difference to size_t. -/
def Line.matchTextAt (l : Line) (text : List Nat) (startColumn : Nat) : Bool :=
  match l.storage with
  | .trivialB buffer =>
    let u8Text := u32ToUtf8 text
    if buffer.usedColumns = 0 then false
    else
      let column := min startColumn (buffer.usedColumns - 1)
      if text.length > intToSizeT ((column : Int) - (buffer.usedColumns : Int)) then
        false
      else
        match strFind (buffer.text.drop column) u8Text column with
        | some resultIndex => resultIndex == 0
        | none => false
  | .inflatedB cells => matchCellsAt cells text startColumn

/-- SearchResult: primitives.h is not among the available sources; from the
uses in Line.h it carries the match column and a partial match length
defaulting to 0. -/
structure SearchResult where
  column : Nat
  partialMatchLength : Nat := 0
deriving DecidableEq, Repr

/-- The scan loop of the inflated branch of Line::search (Line.h lines
383-396); fuel bounds the iteration count (the C++ loop runs baseColumn up
to the cell count).  Note that once the remaining line is shorter than the
text, the C++ removes the suffix from its local view, so the shortened
text persists for the following iterations. -/
def searchForwardLoop (cells : List Cell) (startColumn : Nat) :
    Nat → List Nat → Nat → Option SearchResult
  | 0, _, _ => none
  | fuel + 1, text, baseColumn =>
    if baseColumn < cells.length then
      if cells.length - baseColumn < text.length then
        let truncated := text.take (cells.length - baseColumn)
        if matchCellsAt cells truncated baseColumn then
          some { column := startColumn, partialMatchLength := truncated.length }
        else searchForwardLoop cells startColumn fuel truncated (baseColumn + 1)
      else if matchCellsAt cells text baseColumn then
        some { column := baseColumn }
      else searchForwardLoop cells startColumn fuel text (baseColumn + 1)
    else none

/-- Line::search (Line.h lines 361-400). -/
def Line.search (l : Line) (text : List Nat) (startColumn : Nat) :
    Option SearchResult :=
  match l.storage with
  | .trivialB buffer =>
    let u8Text := u32ToUtf8 text
    if buffer.usedColumns = 0 then none
    else
      let column := min startColumn (buffer.usedColumns - 1)
      match strFind buffer.text u8Text column with
      | some resultIndex => some { column := resultIndex }
      | none => none
  | .inflatedB cells =>
    if cells.length < text.length then none
    else searchForwardLoop cells startColumn (cells.length + 1) text startColumn

/-- The downward scan of the inflated branch of Line::searchReverse
(Line.h lines 430-436): baseColumn runs from its start value down to 0. -/
def searchReverseDown (cells : List Cell) (text : List Nat) :
    Nat → Option SearchResult
  | 0 => if matchCellsAt cells text 0 then some { column := 0 } else none
  | b + 1 =>
    if matchCellsAt cells text (b + 1) then some { column := b + 1 }
    else searchReverseDown cells text b

/-- The trailing partial-match loop of Line::searchReverse (Line.h lines
437-444): the text loses its first codepoint each round and is matched at
column 0. -/
def searchReverseTail (cells : List Cell) (startColumn : Nat) :
    List Nat → Option SearchResult
  | [] => none
  | t :: rest =>
    if matchCellsAt cells (t :: rest) 0 then
      some { column := startColumn, partialMatchLength := (t :: rest).length }
    else searchReverseTail cells startColumn rest

/-- Line::searchReverse (Line.h lines 406-447). -/
def Line.searchReverse (l : Line) (text : List Nat) (startColumn : Nat) :
    Option SearchResult :=
  match l.storage with
  | .trivialB buffer =>
    let u8Text := u32ToUtf8 text
    if buffer.usedColumns = 0 then none
    else
      let column := min startColumn (buffer.usedColumns - 1)
      match strRFind buffer.text u8Text column with
      | some resultIndex => some { column := resultIndex }
      | none => none
  | .inflatedB cells =>
    if cells.length < text.length then none
    else
      match searchReverseDown cells text (min startColumn (cells.length - text.length)) with
      | some r => some r
      | none => searchReverseTail cells startColumn text

/-- The concrete two-column line holding the text ab, in trivial form. -/
def sampleTrivialLine : Line :=
  { storage := .trivialB
      { displayWidth := 2, textAttributes := {}, fillAttributes := {},
        hyperlink := 0, usedColumns := 2, text := [0x61, 0x62] } }

/-- The same content forced into inflated form through the promotion that
inflatedBuffer performs. -/
def sampleInflatedLine : Line := sampleTrivialLine.inflatedBuffer.2

/-! ## Sequencer (vtbackend/Sequencer.cpp) -/

/-- The screen mutations the sequencer delegates; the grid effect itself is
kept abstract as an event log since the claims here concern only the
instruction counter and the collected data. -/
inductive ScreenEvent
  | writeText (codepoint : Nat)
  | writeTextBulk (chars : List Nat) (cellCount : Nat)
  | controlCode (code : Nat)
deriving DecidableEq, Repr

/-- The terminal state the sequencer touches: the instruction counter that
external consumers read to throttle redraws, plus the log of delegated
screen mutations. -/
structure TerminalState where
  instructionCounter : Nat := 0
  screenLog : List ScreenEvent := []
deriving DecidableEq, Repr

/-- Sequencer::print(char32_t) (Sequencer.cpp lines 235-239): bumps the
instruction counter and writes the codepoint. -/
def Sequencer.print (t : TerminalState) (codepoint : Nat) : TerminalState :=
  { t with instructionCounter := t.instructionCounter + 1,
           screenLog := t.screenLog ++ [.writeText codepoint] }

/-- Sequencer::print(string_view, size_t) (Sequencer.cpp lines 241-250):
adds the byte count of the run to the instruction counter and writes the
run (the C++ asserts the run is non-empty). -/
def Sequencer.printBulk (t : TerminalState) (chars : List Nat) (cellCount : Nat) :
    TerminalState :=
  { t with instructionCounter := t.instructionCounter + chars.length,
           screenLog := t.screenLog ++ [.writeTextBulk chars cellCount] }

/-- Modelled from the spec: the SequenceHandler implementation of
executeControlCode (Screen/Terminal) is not among the available sources;
per spec section 4.3 a side effect of every print/execute is that the
instruction counter increments. -/
def executeControlCode (t : TerminalState) (controlCode : Nat) : TerminalState :=
  { t with instructionCounter := t.instructionCounter + 1,
           screenLog := t.screenLog ++ [.controlCode controlCode] }

/-- Sequencer::execute (Sequencer.cpp lines 252-255): delegates to the
sequence handler. -/
def Sequencer.execute (t : TerminalState) (controlCode : Nat) : TerminalState :=
  executeControlCode t controlCode

/-- Modelled from the spec: Sequence.h with the MaxOscLength constant is
not among the available sources; the spec fixes only that a maximum OSC
length cap exists.  The concrete value is irrelevant to the theorems. -/
def MaxOscLength : Nat := 512

/-- Sequencer::putOSC (Sequencer.cpp lines 305-309): the byte is appended
only while one more byte still stays below the cap. -/
def putOSC (s : List Nat) (ch : Nat) : List Nat :=
  if s.length + 1 < MaxOscLength then s ++ [ch] else s

/-- The OSC string collected from a raw byte stream, starting from the
empty buffer the parser hands over at osc-start. -/
def collectOSC (bs : List Nat) : List Nat := bs.foldl putOSC []

/-- Modelled from the spec: parser::extractCodePrefix is not among the
available sources; per spec section 4.3 the numeric code prefix is
extracted from the accumulated string: the leading decimal digits give the
code and the skip count covers them plus a following semicolon. -/
def extractCodePrefix (s : List Nat) : Nat × Nat :=
  let digits := s.takeWhile fun b => decide (0x30 ≤ b) && decide (b ≤ 0x39)
  let code := digits.foldl (fun acc d => acc * 10 + (d - 0x30)) 0
  let skip :=
    match s.drop digits.length with
    | 0x3B :: _ => digits.length + 1
    | _ => digits.length
  (code, skip)

/-- Sequencer::dispatchOSC (Sequencer.cpp lines 311-318): the code becomes
the sequence parameter and the remaining collected bytes are handed to the
handler. -/
def dispatchOSC (s : List Nat) : Nat × List Nat :=
  let p := extractCodePrefix s
  (p.1, s.drop p.2)

/-- The state Sequencer::maxBulkTextSequenceWidth reads (Sequencer.cpp
lines 344-356): active screen, storage form of the current line, the right
horizontal margin and the cursor column. -/
structure BulkContext where
  isPrimaryScreen : Bool
  currentLineIsTrivialBuffer : Bool
  marginHorizontalTo : Nat
  cursorColumn : Nat
deriving DecidableEq, Repr

/-- Sequencer::maxBulkTextSequenceWidth (Sequencer.cpp lines 344-356); the
C++ asserts the margin end is at or beyond the cursor column. -/
def maxBulkTextSequenceWidth (ctx : BulkContext) : Nat :=
  if !ctx.isPrimaryScreen then 0
  else if !ctx.currentLineIsTrivialBuffer then 0
  else ctx.marginHorizontalTo - ctx.cursorColumn

/-! ## Escape-sequence state machine (vtparser)

Modelled from the spec: Parser.h with the transition table and
parseFragment is not among the available sources (Parser.cpp only renders
the table to a dot graph).  The machine below follows spec section 4.2:
the states of the VT parsing diagram, one action list per transition, the
anywhere rules for CAN, SUB and ESC, and a dense byte-driven step
function.  Incomplete sequences persist solely in the machine state. -/

inductive VTState
  | ground
  | escape
  | escapeIntermediate
  | csiEntry
  | csiParam
  | csiIntermediate
  | csiIgnore
  | dcsEntry
  | dcsParam
  | dcsIntermediate
  | dcsPassthrough
  | dcsIgnore
  | oscString
  | sosPmApcString
deriving DecidableEq, Repr

inductive VTAction
  | printA (b : Nat)
  | executeA (b : Nat)
  | clearA
  | collectA (b : Nat)
  | collectLeaderA (b : Nat)
  | paramA (b : Nat)
  | escDispatchA (b : Nat)
  | csiDispatchA (b : Nat)
  | hookA (b : Nat)
  | putA (b : Nat)
  | unhookA
  | oscStartA
  | oscPutA (b : Nat)
  | oscEndA
deriving DecidableEq, Repr

/-- Modelled from the spec: one transition of the VT parsing state machine
(spec section 4.2): target state and emitted actions for a state and an
input byte, including the anywhere rules (CAN/SUB abort to Ground with an
execute, ESC restarts sequence collection, ST 0x9C terminates string
states). -/
def vtTransition (s : VTState) (b : Nat) : VTState × List VTAction :=
  if b = 0x18 ∨ b = 0x1A then
    match s with
    | .dcsPassthrough => (.ground, [.unhookA, .executeA b])
    | .oscString => (.ground, [.oscEndA, .executeA b])
    | _ => (.ground, [.executeA b])
  else if b = 0x1B then
    match s with
    | .dcsPassthrough => (.escape, [.unhookA, .clearA])
    | .oscString => (.escape, [.oscEndA, .clearA])
    | _ => (.escape, [.clearA])
  else if b = 0x9C then
    match s with
    | .dcsPassthrough => (.ground, [.unhookA])
    | .oscString => (.ground, [.oscEndA])
    | _ => (.ground, [])
  else
    match s with
    | .ground =>
      if b ≤ 0x1F ∨ b = 0x7F then (.ground, [.executeA b])
      else (.ground, [.printA b])
    | .escape =>
      if b ≤ 0x1F then (.escape, [.executeA b])
      else if 0x20 ≤ b ∧ b ≤ 0x2F then (.escapeIntermediate, [.collectA b])
      else if b = 0x5B then (.csiEntry, [.clearA])
      else if b = 0x5D then (.oscString, [.oscStartA])
      else if b = 0x50 then (.dcsEntry, [.clearA])
      else if b = 0x58 ∨ b = 0x5E ∨ b = 0x5F then (.sosPmApcString, [])
      else (.ground, [.escDispatchA b])
    | .escapeIntermediate =>
      if b ≤ 0x1F then (.escapeIntermediate, [.executeA b])
      else if 0x20 ≤ b ∧ b ≤ 0x2F then (.escapeIntermediate, [.collectA b])
      else (.ground, [.escDispatchA b])
    | .csiEntry =>
      if b ≤ 0x1F then (.csiEntry, [.executeA b])
      else if 0x20 ≤ b ∧ b ≤ 0x2F then (.csiIntermediate, [.collectA b])
      else if (0x30 ≤ b ∧ b ≤ 0x39) ∨ b = 0x3A ∨ b = 0x3B then (.csiParam, [.paramA b])
      else if 0x3C ≤ b ∧ b ≤ 0x3F then (.csiParam, [.collectLeaderA b])
      else if 0x40 ≤ b ∧ b ≤ 0x7E then (.ground, [.csiDispatchA b])
      else (.csiIgnore, [])
    | .csiParam =>
      if b ≤ 0x1F then (.csiParam, [.executeA b])
      else if (0x30 ≤ b ∧ b ≤ 0x39) ∨ b = 0x3A ∨ b = 0x3B then (.csiParam, [.paramA b])
      else if 0x20 ≤ b ∧ b ≤ 0x2F then (.csiIntermediate, [.collectA b])
      else if 0x40 ≤ b ∧ b ≤ 0x7E then (.ground, [.csiDispatchA b])
      else (.csiIgnore, [])
    | .csiIntermediate =>
      if b ≤ 0x1F then (.csiIntermediate, [.executeA b])
      else if 0x20 ≤ b ∧ b ≤ 0x2F then (.csiIntermediate, [.collectA b])
      else if 0x40 ≤ b ∧ b ≤ 0x7E then (.ground, [.csiDispatchA b])
      else (.csiIgnore, [])
    | .csiIgnore =>
      if 0x40 ≤ b ∧ b ≤ 0x7E then (.ground, []) else (.csiIgnore, [])
    | .dcsEntry =>
      if 0x20 ≤ b ∧ b ≤ 0x2F then (.dcsIntermediate, [.collectA b])
      else if (0x30 ≤ b ∧ b ≤ 0x39) ∨ b = 0x3A ∨ b = 0x3B then (.dcsParam, [.paramA b])
      else if 0x3C ≤ b ∧ b ≤ 0x3F then (.dcsParam, [.collectLeaderA b])
      else if 0x40 ≤ b ∧ b ≤ 0x7E then (.dcsPassthrough, [.hookA b])
      else (.dcsIgnore, [])
    | .dcsParam =>
      if (0x30 ≤ b ∧ b ≤ 0x39) ∨ b = 0x3A ∨ b = 0x3B then (.dcsParam, [.paramA b])
      else if 0x20 ≤ b ∧ b ≤ 0x2F then (.dcsIntermediate, [.collectA b])
      else if 0x40 ≤ b ∧ b ≤ 0x7E then (.dcsPassthrough, [.hookA b])
      else (.dcsIgnore, [])
    | .dcsIntermediate =>
      if 0x20 ≤ b ∧ b ≤ 0x2F then (.dcsIntermediate, [.collectA b])
      else if 0x40 ≤ b ∧ b ≤ 0x7E then (.dcsPassthrough, [.hookA b])
      else (.dcsIgnore, [])
    | .dcsPassthrough => (.dcsPassthrough, [.putA b])
    | .dcsIgnore => (.dcsIgnore, [])
    | .oscString =>
      if b = 0x07 then (.ground, [.oscEndA])
      else (.oscString, [.oscPutA b])
    | .sosPmApcString => (.sosPmApcString, [])

/-- The whole machine: current parsing state plus the emitted primitive
events, which drive all grid mutations. -/
structure VTMachine where
  state : VTState := .ground
  events : List VTAction := []
deriving DecidableEq, Repr

/-- One byte-feed step of the machine. -/
def processByte (m : VTMachine) (b : Nat) : VTMachine :=
  let sa := vtTransition m.state b
  { state := sa.1, events := m.events ++ sa.2 }

/-- parseFragment: a contiguous chunk is consumed byte by byte. -/
def parseFragment (m : VTMachine) : List Nat → VTMachine
  | [] => m
  | b :: rest => parseFragment (processByte m b) rest

/-! ## Helper lemmas -/

theorem catToInt_inj : ∀ a b : FunctionCategory, a.toInt = b.toInt → a = b := by
  intro a b h
  cases a <;> cases b <;> first
    | rfl
    | (exfalso; simp only [FunctionCategory.toInt] at h; omega)

/-- Characterization of a zero comparison result: all four identification
fields agree and the argument count is compatible (exact for OSC, within
the bounds otherwise). -/
theorem compare_eq_zero_iff (s : FunctionSelector) (d : FunctionDefinition) :
    compare s d = 0 ↔
      (s.category = d.category ∧ s.finalSymbol = d.finalSymbol ∧
       s.leader = d.leader ∧ s.intermediate = d.intermediate ∧
       (if s.category = FunctionCategory.osc then s.argc = d.maximumParameters
        else d.minimumParameters ≤ s.argc ∧ s.argc ≤ d.maximumParameters)) := by
  by_cases hc : s.category = d.category
  · by_cases ho : s.category = FunctionCategory.osc
    · have ho2 : d.category = FunctionCategory.osc := hc ▸ ho
      simp [compare, hc, ho2]
      omega
    · have ho2 : ¬d.category = FunctionCategory.osc := fun h => ho (hc.trans h)
      simp [compare, hc, ho2]
      omega
  · have hcInt : s.category.toInt ≠ d.category.toInt := fun hEq =>
      hc (catToInt_inj _ _ hEq)
    simp [compare, hc]
    omega

-- No two table entries can both compare equal to one selector: checked
-- pairwise over the whole table.
set_option maxRecDepth 20000 in
set_option maxHeartbeats 2000000 in
theorem functions_pairwise_compatible :
    (functions.all fun d => functions.all fun e => !(overlapping d e) || d == e) = true := by
  decide

/-- Any two table entries matched by the same selector are the same
entry. -/
theorem compare_unique {d e : FunctionDefinition} (hd : d ∈ functions)
    (he : e ∈ functions) {s : FunctionSelector}
    (hcd : compare s d = 0) (hce : compare s e = 0) : d = e := by
  obtain ⟨h1, h2, h3, h4, h5⟩ := (compare_eq_zero_iff s d).mp hcd
  obtain ⟨g1, g2, g3, g4, g5⟩ := (compare_eq_zero_iff s e).mp hce
  have hcat : d.category = e.category := h1.symm.trans g1
  have hfin : d.finalSymbol = e.finalSymbol := h2.symm.trans g2
  have hlead : d.leader = e.leader := h3.symm.trans g3
  have hint : d.intermediate = e.intermediate := h4.symm.trans g4
  have hov : overlapping d e = true := by
    rw [h1, hcat] at h5
    rw [g1] at g5
    unfold overlapping
    rw [hcat, hfin, hlead, hint]
    simp only [beq_self_eq_true, Bool.true_and]
    by_cases ho : e.category = FunctionCategory.osc
    · rw [if_pos ho] at h5 g5
      rw [if_pos (by simp [ho] : (e.category == FunctionCategory.osc) = true)]
      simp [h5.symm.trans g5]
    · rw [if_neg ho] at h5 g5
      rw [if_neg (by simp [ho] : ¬(e.category == FunctionCategory.osc) = true)]
      simp only [decide_eq_true_eq]
      omega
  have hall := functions_pairwise_compatible
  rw [List.all_eq_true] at hall
  have hall2 := hall d hd
  rw [List.all_eq_true] at hall2
  have hde := hall2 e he
  rw [Bool.or_eq_true] at hde
  rcases hde with hno | heq
  · rw [hov] at hno
    simp at hno
  · exact beq_iff_eq.mp heq

/-- find? returns the unique element satisfying the predicate when there is
exactly one. -/
theorem find?_eq_some_of_unique {α : Type} (p : α → Bool) :
    ∀ (l : List α) (d : α), d ∈ l → p d = true →
      (∀ e ∈ l, p e = true → e = d) → l.find? p = some d := by
  intro l
  induction l with
  | nil => intro d hd _ _; simp at hd
  | cons a t ih =>
    intro d hd hpd huniq
    by_cases hpa : p a = true
    · rw [List.find?_cons_of_pos _ hpa]
      exact congrArg some (huniq a (List.mem_cons_self a t) hpa)
    · rw [List.find?_cons_of_neg _ (by simpa using hpa)]
      rcases List.mem_cons.mp hd with h | h
      · exact absurd (h ▸ hpd) hpa
      · exact ih d h hpd fun e he hp => huniq e (List.mem_cons_of_mem _ he) hp

/-- A definition always compares equal to the selector carrying its own
fields and a compatible argument count. -/
theorem compare_selectorOf_self (d : FunctionDefinition) (argc : Nat)
    (h : if d.category = FunctionCategory.osc then argc = d.maximumParameters
         else d.minimumParameters ≤ argc ∧ argc ≤ d.maximumParameters) :
    compare (selectorOf d argc) d = 0 := by
  rw [compare_eq_zero_iff]
  exact ⟨rfl, rfl, rfl, rfl, h⟩

/-- The collected OSC string after any byte stream is its prefix below the
cap; stated for an arbitrary starting buffer for the induction. -/
theorem foldl_putOSC (bs : List Nat) : ∀ s : List Nat,
    bs.foldl putOSC s = s ++ bs.take (MaxOscLength - 1 - s.length) := by
  induction bs with
  | nil => intro s; simp
  | cons b rest ih =>
    intro s
    by_cases h : s.length + 1 < MaxOscLength
    · have hput : putOSC s b = s ++ [b] := by simp [putOSC, h]
      have hk : MaxOscLength - 1 - s.length = (MaxOscLength - 1 - (s.length + 1)) + 1 := by
        simp only [MaxOscLength] at h ⊢
        omega
      rw [List.foldl_cons, hput, ih, hk]
      simp [List.take_succ_cons, List.append_assoc]
    · have hput : putOSC s b = s := by simp [putOSC, h]
      have h0 : MaxOscLength - 1 - s.length = 0 := by
        simp only [MaxOscLength] at h ⊢
        omega
      rw [List.foldl_cons, ih, hput, h0]
      simp

/-! ## Claim theorems -/

set_option maxRecDepth 20000 in
/-- C1: the claim that a trivial Line and the same content in inflated form
answer identically to matchTextAt, search and searchReverse fails on the
code: on the two-column line holding ab, matchTextAt for the text b at
start column 1 answers false in trivial form (the trivial branch applies
the column offset twice: substr(column) followed by find with start
position column, so a match at any column above 0 is unreachable) but true
in inflated form; likewise search for bc reports no match in trivial form
but a partial match of length 1 in inflated form. -/
theorem line_representations_disagree :
    sampleInflatedLine = sampleTrivialLine.inflatedBuffer.2
    ∧ sampleTrivialLine.matchTextAt [0x62] 1 = false
    ∧ sampleInflatedLine.matchTextAt [0x62] 1 = true
    ∧ sampleTrivialLine.search [0x62, 0x63] 0 = none
    ∧ sampleInflatedLine.search [0x62, 0x63] 0
      = some { column := 0, partialMatchLength := 1 } :=
  ⟨rfl, by decide, by decide, by decide, by decide⟩

set_option maxRecDepth 20000 in
/-- C2 counterexample: the round-trip fails for OSC definitions when the
argument count is merely within [minimumParameters, maximumParameters].
For SETICON (OSC code 1) the argument count 0 lies within [0, 1], yet
select resolves the selector built from SETICON to SETTITLE (OSC code 0),
because OSC selectors are matched by exact code. -/
theorem select_osc_inrange_not_roundtrip :
    SETICON ∈ functions
    ∧ SETICON.minimumParameters ≤ 0 ∧ 0 ≤ SETICON.maximumParameters
    ∧ select (selectorOf SETICON 0) = some SETTITLE
    ∧ SETTITLE ≠ SETICON := by
  decide

/-- C2 (amended): for every non-OSC definition registered in the table,
select applied to the selector built from its own category, leader, any
argument count within [minimumParameters, maximumParameters], intermediate
and final byte returns exactly that definition; for an OSC definition the
round-trip holds with the argument count equal to maximumParameters (the
OSC code slot). -/
theorem select_roundtrip (d : FunctionDefinition) (hd : d ∈ functions) :
    (d.category ≠ FunctionCategory.osc →
      ∀ argc : Nat, d.minimumParameters ≤ argc → argc ≤ d.maximumParameters →
        select (selectorOf d argc) = some d)
    ∧ (d.category = FunctionCategory.osc →
      select (selectorOf d d.maximumParameters) = some d) := by
  constructor
  · intro hosc argc hmin hmax
    have hself : compare (selectorOf d argc) d = 0 :=
      compare_selectorOf_self d argc (by rw [if_neg hosc]; exact ⟨hmin, hmax⟩)
    unfold select
    apply find?_eq_some_of_unique _ _ _ hd
    · simpa using hself
    · intro e he hpe
      exact compare_unique he hd (by simpa using hpe) hself
  · intro hosc
    have hself : compare (selectorOf d d.maximumParameters) d = 0 :=
      compare_selectorOf_self d _ (by rw [if_pos hosc])
    unfold select
    apply find?_eq_some_of_unique _ _ _ hd
    · simpa using hself
    · intro e he hpe
      exact compare_unique he hd (by simpa using hpe) hself

set_option maxRecDepth 20000 in
/-- Witness for select_roundtrip: SGR with 3 parameters and the HYPERLINK
OSC code round-trip to themselves. -/
theorem select_roundtrip_witness :
    select (selectorOf SGR 3) = some SGR
    ∧ select (selectorOf HYPERLINK HYPERLINK.maximumParameters) = some HYPERLINK :=
  ⟨(select_roundtrip SGR (by decide)).1 (by decide) 3 (by decide) (by decide),
   (select_roundtrip HYPERLINK (by decide)).2 (by decide)⟩

/-- C3: the selector-to-definition comparison is lexicographic in the order
category, then final byte, then leader, then intermediate, then parameter
count, and it compares equal exactly when the four identification fields
agree and the argument count lies within
[minimumParameters, maximumParameters] for non-OSC categories respectively
equals maximumParameters exactly for OSC. -/
theorem compare_lexicographic (s : FunctionSelector) (d : FunctionDefinition) :
    (s.category ≠ d.category →
      compare s d = s.category.toInt - d.category.toInt)
    ∧ (s.category = d.category → s.finalSymbol ≠ d.finalSymbol →
      compare s d = (s.finalSymbol : Int) - (d.finalSymbol : Int))
    ∧ (s.category = d.category → s.finalSymbol = d.finalSymbol →
      s.leader ≠ d.leader →
      compare s d = (s.leader : Int) - (d.leader : Int))
    ∧ (s.category = d.category → s.finalSymbol = d.finalSymbol →
      s.leader = d.leader → s.intermediate ≠ d.intermediate →
      compare s d = (s.intermediate : Int) - (d.intermediate : Int))
    ∧ (compare s d = 0 ↔
      (s.category = d.category ∧ s.finalSymbol = d.finalSymbol ∧
       s.leader = d.leader ∧ s.intermediate = d.intermediate ∧
       (if s.category = FunctionCategory.osc then s.argc = d.maximumParameters
        else d.minimumParameters ≤ s.argc ∧ s.argc ≤ d.maximumParameters))) := by
  refine ⟨?_, ?_, ?_, ?_, compare_eq_zero_iff s d⟩
  · intro h
    simp [compare, h]
  · intro hc hf
    simp [compare, hc, hf]
  · intro hc hf hl
    simp [compare, hc, hf, hl]
  · intro hc hf hl hi
    simp [compare, hc, hf, hl, hi]

/-- Witness for compare_lexicographic: a C0 selector against the CSI
definition SGR is decided by the category alone. -/
theorem compare_lexicographic_witness :
    compare (selectorOf BEL 0) SGR
      = FunctionCategory.toInt FunctionCategory.c0
        - FunctionCategory.toInt FunctionCategory.csi :=
  (compare_lexicographic (selectorOf BEL 0) SGR).1 (by decide)

/-- C4: feeding a byte stream to the parser one byte at a time yields the
same machine state (parsing state and emitted events, hence the same grid
mutations) as feeding it as one contiguous chunk: chunk parsing is the
fold of the single-byte step, and parsing distributes over
concatenation. -/
theorem parseFragment_chunk_invariance (m : VTMachine) (bs a b : List Nat) :
    parseFragment m bs = bs.foldl (fun acc byte => parseFragment acc [byte]) m
    ∧ parseFragment m (a ++ b) = parseFragment (parseFragment m a) b := by
  constructor
  · induction bs generalizing m with
    | nil => rfl
    | cons x xs ih =>
      simpa [parseFragment] using ih (processByte m x)
  · induction a generalizing m with
    | nil => rfl
    | cons x xs ih =>
      simpa [parseFragment] using ih (processByte m x)

/-- C5 counterexample: the claim that no code path other than
inflatedBuffer mutates the storage representation (and that no operation
demotes) fails: reset on an inflated line replaces the storage with a
fresh trivial buffer. -/
theorem reset_demotes_inflated :
    sampleInflatedLine.isInflatedBuffer = true
    ∧ (sampleInflatedLine.reset 0 {}).isTrivialBuffer = true := by
  decide

/-- C5 (amended): the trivial-to-inflated promotion is performed only by
inflatedBuffer (which never demotes and leaves an already inflated line
unchanged); reset reinitializes the storage to a fresh trivial buffer,
demoting an inflated line, and fill with codepoint 0 delegates to reset;
fill with a nonzero codepoint inflates through inflatedBuffer; flag
updates leave the storage untouched. -/
theorem storage_representation_transitions (l : Line) (fl cnt cp w flag : Nat)
    (a : GraphicsAttributes) (en : Bool) :
    l.inflatedBuffer.2.isInflatedBuffer = true
    ∧ (l.isInflatedBuffer = true → l.inflatedBuffer.2 = l)
    ∧ (l.reset fl a).isTrivialBuffer = true
    ∧ (l.resetWithCount fl a cnt).isTrivialBuffer = true
    ∧ l.fill fl a 0 w = l.reset fl a
    ∧ (cp ≠ 0 → (l.fill fl a cp w).isInflatedBuffer = true)
    ∧ (l.setFlag flag en).storage = l.storage := by
  obtain ⟨st, lf⟩ := l
  refine ⟨?_, ?_, ?_, ?_, ?_, ?_, ?_⟩
  · cases st <;>
      simp [Line.inflatedBuffer, Line.isInflatedBuffer, Line.isTrivialBuffer]
  · intro h
    cases st with
    | trivialB tb =>
      simp [Line.isInflatedBuffer, Line.isTrivialBuffer] at h
    | inflatedB cells => rfl
  · cases st <;> simp [Line.reset, Line.isTrivialBuffer]
  · simp [Line.resetWithCount, Line.isTrivialBuffer]
  · simp [Line.fill]
  · intro h
    cases st <;>
      simp [Line.fill, h, Line.inflatedBuffer, Line.isInflatedBuffer,
        Line.isTrivialBuffer]
  · rfl

/-- Witness for storage_representation_transitions: an already inflated
line passes through inflatedBuffer unchanged, and fill with codepoint a
leaves the sample trivial line inflated. -/
theorem storage_representation_transitions_witness :
    sampleInflatedLine.inflatedBuffer.2 = sampleInflatedLine
    ∧ (sampleTrivialLine.fill 0 ({} : GraphicsAttributes) 0x61 1).isInflatedBuffer = true :=
  ⟨(storage_representation_transitions sampleInflatedLine 0 0 0x61 1 0 {} true).2.1
      (by decide),
   (storage_representation_transitions sampleTrivialLine 0 0 0x61 1 0 {} true).2.2.2.2.2.1
      (by decide)⟩

/-- C6: every call to print, single codepoint or bulk run, and every call
to execute increments the instruction counter (the bulk run adds its byte
count; the C++ asserts bulk runs are non-empty). -/
theorem instruction_counter_increments (t : TerminalState) (cp cellCount ctl : Nat)
    (chars : List Nat) :
    (Sequencer.print t cp).instructionCounter = t.instructionCounter + 1
    ∧ (chars ≠ [] →
      t.instructionCounter < (Sequencer.printBulk t chars cellCount).instructionCounter)
    ∧ (Sequencer.execute t ctl).instructionCounter = t.instructionCounter + 1 := by
  refine ⟨rfl, ?_, rfl⟩
  intro h
  have hlen : 0 < chars.length := List.length_pos.mpr h
  simp [Sequencer.printBulk]
  omega

/-- Witness for instruction_counter_increments: a two-byte bulk run strictly
increases the counter. -/
theorem instruction_counter_increments_witness :
    ({} : TerminalState).instructionCounter
      < (Sequencer.printBulk {} [0x48, 0x69] 2).instructionCounter :=
  (instruction_counter_increments {} 0 2 0 [0x48, 0x69]).2.1 (by decide)

/-- C7: the OSC cap: every putOSC byte at or beyond the cap is silently
dropped, the collected string is exactly the stream prefix below the cap,
its length never exceeds the cap, and dispatch handles exactly the
collected bytes. -/
theorem osc_cap_enforced (s : List Nat) (ch : Nat) (bs : List Nat) :
    (MaxOscLength ≤ s.length + 1 → putOSC s ch = s)
    ∧ collectOSC bs = bs.take (MaxOscLength - 1)
    ∧ (collectOSC bs).length ≤ MaxOscLength
    ∧ dispatchOSC (collectOSC bs) = dispatchOSC (bs.take (MaxOscLength - 1)) := by
  have hcol : collectOSC bs = bs.take (MaxOscLength - 1) := by
    unfold collectOSC
    rw [foldl_putOSC]
    simp
  refine ⟨?_, hcol, ?_, by rw [hcol]⟩
  · intro h
    unfold putOSC
    rw [if_neg (by omega)]
  · rw [hcol]
    exact le_trans (List.length_take_le _ _) (by omega)

/-- Witness for osc_cap_enforced: a buffer already at the cap drops the next
byte. -/
theorem osc_cap_enforced_witness :
    putOSC (List.replicate 511 0x41) 0x42 = List.replicate 511 0x41 :=
  (osc_cap_enforced (List.replicate 511 0x41) 0x42 []).1
    (by rw [List.length_replicate]; norm_num [MaxOscLength])

/-- C8: the permitted bulk-run width is 0 whenever the active screen is not
the primary screen or the current line is not a trivial buffer, and
otherwise equals the space between the cursor column and the right
margin. -/
theorem maxBulkTextSequenceWidth_spec (ctx : BulkContext) :
    ((ctx.isPrimaryScreen = false ∨ ctx.currentLineIsTrivialBuffer = false) →
      maxBulkTextSequenceWidth ctx = 0)
    ∧ (ctx.isPrimaryScreen = true → ctx.currentLineIsTrivialBuffer = true →
      ctx.cursorColumn ≤ ctx.marginHorizontalTo →
      maxBulkTextSequenceWidth ctx
        = ctx.marginHorizontalTo - ctx.cursorColumn) := by
  obtain ⟨p, tr, mto, col⟩ := ctx
  cases p <;> cases tr <;> simp [maxBulkTextSequenceWidth]

/-- Witness for maxBulkTextSequenceWidth_spec: on the alternate screen the
width is 0; on the primary screen over a trivial line it is the remaining
margin. -/
theorem maxBulkTextSequenceWidth_spec_witness :
    maxBulkTextSequenceWidth
      { isPrimaryScreen := false, currentLineIsTrivialBuffer := true,
        marginHorizontalTo := 80, cursorColumn := 3 } = 0
    ∧ maxBulkTextSequenceWidth
      { isPrimaryScreen := true, currentLineIsTrivialBuffer := true,
        marginHorizontalTo := 80, cursorColumn := 3 } = 80 - 3 :=
  ⟨(maxBulkTextSequenceWidth_spec _).1 (Or.inl rfl),
   (maxBulkTextSequenceWidth_spec _).2 rfl rfl (by norm_num)⟩

/-- C9: filling any line with flags, attributes and codepoint 0 (the reset
case) always leaves an empty line. -/
theorem fill_zero_empty (l : Line) (fl : Nat) (attrs : GraphicsAttributes) :
    (l.fill fl attrs 0 0).empty = true := by
  obtain ⟨st, lf⟩ := l
  cases st <;>
    simp [Line.fill, Line.reset, Line.empty, TrivialLineBuffer.reset]

/-- C10: when the primary codepoint is 0 both codepoints() and toUtf8()
return the empty string regardless of the extra payload; when it is
nonzero both outputs begin with the primary codepoint followed by the
extra codepoints in stored order. -/
theorem compactCell_codepoints_toUtf8 (c : CompactCell) :
    (c.codepoint = 0 → c.codepointsOf = [] ∧ c.toUtf8 = [])
    ∧ (c.codepoint ≠ 0 →
      c.codepointsOf = c.codepoint :: c.extraCodepoints
      ∧ c.toUtf8 = utf8Encode c.codepoint
          ++ (c.extraCodepoints.map utf8Encode).flatten) := by
  obtain ⟨cp, ex⟩ := c
  constructor
  · intro h
    subst h
    cases ex <;> simp [CompactCell.codepointsOf, CompactCell.toUtf8]
  · intro h
    cases ex <;>
      simp [CompactCell.codepointsOf, CompactCell.toUtf8,
        CompactCell.extraCodepoints, h]

/-- Witness for compactCell_codepoints_toUtf8: a cell with primary
codepoint 0 but a stored combining mark yields empty outputs; with primary
codepoint a the outputs start with it. -/
theorem compactCell_codepoints_toUtf8_witness :
    (CompactCell.codepointsOf { codepoint := 0, extra := some { codepoints := [0x301] } } = []
      ∧ CompactCell.toUtf8 { codepoint := 0, extra := some { codepoints := [0x301] } } = [])
    ∧ (CompactCell.codepointsOf { codepoint := 0x61, extra := some { codepoints := [0x301] } }
        = 0x61 :: CompactCell.extraCodepoints
            { codepoint := 0x61, extra := some { codepoints := [0x301] } }
      ∧ CompactCell.toUtf8 { codepoint := 0x61, extra := some { codepoints := [0x301] } }
        = utf8Encode 0x61
          ++ ((CompactCell.extraCodepoints
                { codepoint := 0x61, extra := some { codepoints := [0x301] } }).map
              utf8Encode).flatten) :=
  ⟨(compactCell_codepoints_toUtf8 _).1 rfl,
   (compactCell_codepoints_toUtf8 _).2 (by decide)⟩

end Terminal
